import Mathlib

/-!
Shallow embedding of the thumbnail-composer component (`src/App.tsx`).

JavaScript numbers are modelled as rationals (`ℚ`): every quantity the
component manipulates (coordinates, sizes, widths) is produced by input
parsing, addition, subtraction and halving, so rationals represent them
exactly.  Text metrics (`ctx.measureText`) and JSON parsing/serialisation
live outside the component; they are taken as function parameters.

React state-update semantics relevant here: a `useState` setter called with
a plain value (not an updater function) queues a *replacement*; several
such calls inside one event handler all read the same render snapshot, and
the last queued value wins once React commits.
-/

namespace Thumbnailer

/-- A point in canvas coordinates (already mapped from screen space). -/
structure Point where
  x : ℚ
  y : ℚ
deriving DecidableEq

/-- `interface CanvasSize { width: number; height: number; }` -/
structure CanvasSize where
  width : ℚ
  height : ℚ
deriving DecidableEq

/-- `interface BorderOptions { color: string; width: number; enabled: boolean; }` -/
structure BorderOptions where
  color : String
  width : ℚ
  enabled : Bool
deriving DecidableEq

/-- `interface DateOptions { enabled: boolean; }` -/
structure DateOptions where
  enabled : Bool
deriving DecidableEq

/-- `interface TextLayer extends BaseLayer` — all fields of a text layer
(the `type: 'text'` discriminant becomes the `Layer.text` constructor). -/
structure TextLayer where
  x : ℚ
  y : ℚ
  content : String
  fontSize : ℚ
  fontFamily : String
  fontWeight : String
  color : String
  strokeColor : String
  strokeWidth : ℚ
  shadowColor : String
  shadowBlur : ℚ
  shadowOffsetX : ℚ
  shadowOffsetY : ℚ
  shadowEnabled : Bool
deriving DecidableEq, Inhabited

/-- `interface ImageLayer extends BaseLayer` — the `src` data URI plus the
declared draw size (the `type: 'image'` discriminant becomes `Layer.image`). -/
structure ImageLayer where
  x : ℚ
  y : ℚ
  src : String
  width : ℚ
  height : ℚ
deriving DecidableEq, Inhabited

/-- `type Layer = TextLayer | ImageLayer` (tagged union on `type`). -/
inductive Layer where
  | text (t : TextLayer)
  | image (i : ImageLayer)
deriving DecidableEq, Inhabited

/-- The `x` coordinate of a layer's centre (`layer.x`). -/
def Layer.x : Layer → ℚ
  | .text t => t.x
  | .image i => i.x

/-- The `y` coordinate of a layer's centre (`layer.y`). -/
def Layer.y : Layer → ℚ
  | .text t => t.y
  | .image i => i.y

/-- The tag of the union: `true` for `type === 'text'`. -/
def Layer.isText : Layer → Bool
  | .text _ => true
  | .image _ => false

/-- `interface Template` — field-for-field the record built by
`saveTemplate`: note it has *no* background-image field. -/
structure Template where
  name : String
  layers : List Layer
  canvasSize : CanvasSize
  backgroundColor : String
  borderOptions : BorderOptions
  dateOptions : DateOptions
deriving DecidableEq

/-- `interface DragInfo { isDragging; targetIndex; startX; startY }` -/
structure DragInfo where
  isDragging : Bool
  targetIndex : Option Nat
  startX : ℚ
  startY : ℚ
deriving DecidableEq

/-- The component's `useState` fields that the verified operations touch.
`imageObjects` (the decoded-image cache) is modelled separately as the list
of source keys that have finished decoding. -/
structure AppState where
  canvasSize : CanvasSize
  backgroundColor : String
  backgroundImage : Option String
  borderOptions : BorderOptions
  dateOptions : DateOptions
  layers : List Layer
  selectedLayerIndex : Option Nat
  templates : List Template
  dragInfo : DragInfo
deriving DecidableEq

/-- The spec's Scene aggregate: canvas size, background (colour and optional
image reference), border, date options, ordered layers.  In the component
these are six separate state fields; this projection packages them so that
deep equality of live scenes can be stated. -/
structure Scene where
  canvasSize : CanvasSize
  backgroundColor : String
  backgroundImage : Option String
  borderOptions : BorderOptions
  dateOptions : DateOptions
  layers : List Layer
deriving DecidableEq

/-- Project the live Scene out of the component state. -/
def AppState.scene (st : AppState) : Scene :=
  { canvasSize := st.canvasSize
    backgroundColor := st.backgroundColor
    backgroundImage := st.backgroundImage
    borderOptions := st.borderOptions
    dateOptions := st.dateOptions
    layers := st.layers }

/-- Text metrics oracle: `ctx.measureText(content).width` after
`ctx.font = fontWeight + " " + fontSize + "px " + fontFamily` — a function
of the font weight, size, family and the string measured. -/
def TextMeasure : Type := String → ℚ → String → String → ℚ

/-- An axis-aligned rectangle `{x, y, width, height}` as built in
`handleMouseDown` and `drawSelection`. -/
structure Rect where
  x : ℚ
  y : ℚ
  width : ℚ
  height : ℚ
deriving DecidableEq

/-- The containment test of `handleMouseDown`:
`pos.x >= rect.x && pos.x <= rect.x + rect.width && pos.y >= rect.y && pos.y <= rect.y + rect.height`. -/
def rectContains (r : Rect) (p : Point) : Bool :=
  decide (r.x ≤ p.x) && decide (p.x ≤ r.x + r.width) &&
  decide (r.y ≤ p.y) && decide (p.y ≤ r.y + r.height)

/-- The hit-test bounding box built in `handleMouseDown`: for text, measured
width × declared font size; for images, declared width × height; both
centred at the layer's `(x, y)`. -/
def layerRect (measure : TextMeasure) : Layer → Rect
  | .text t =>
    { x := t.x - measure t.fontWeight t.fontSize t.fontFamily t.content / 2
      y := t.y - t.fontSize / 2
      width := measure t.fontWeight t.fontSize t.fontFamily t.content
      height := t.fontSize }
  | .image i =>
    { x := i.x - i.width / 2
      y := i.y - i.height / 2
      width := i.width
      height := i.height }

/-- `Array.prototype.findIndex` (a result of `-1` becomes `none`). -/
def findIndex (pred : α → Bool) : List α → Option Nat
  | [] => none
  | a :: as => if pred a then some 0 else (findIndex pred as).map (· + 1)

/-- The layer search of `handleMouseDown`:
`[...layers].reverse().findIndex(...)`, then
`layers.length - 1 - clickedLayerIndex` to translate back, `-1` meaning no
hit. -/
def hitTestIdx (measure : TextMeasure) (layers : List Layer) (pos : Point) :
    Option Nat :=
  match findIndex (fun l => rectContains (layerRect measure l) pos) layers.reverse with
  | some i => some (layers.length - 1 - i)
  | none => none

/-- `Array.prototype.map` with the element index, as in
`layers.map((layer, index) => ...)`; `i` is the index of the list head. -/
def jsMapWithIndexAux (f : Nat → α → α) : Nat → List α → List α
  | _, [] => []
  | i, a :: as => f i a :: jsMapWithIndexAux f (i + 1) as

/-- `l.map((a, index) => f(index, a))`. -/
def jsMapWithIndex (f : Nat → α → α) (l : List α) : List α :=
  jsMapWithIndexAux f 0 l

/-- `Array.prototype.filter` with the element index, as in
`layers.filter((_, index) => ...)`; `i` is the index of the list head. -/
def jsFilterWithIndexAux (p : Nat → α → Bool) : Nat → List α → List α
  | _, [] => []
  | i, a :: as =>
    if p i a then a :: jsFilterWithIndexAux p (i + 1) as
    else jsFilterWithIndexAux p (i + 1) as

/-- `l.filter((a, index) => p(index, a))`. -/
def jsFilterWithIndex (p : Nat → α → Bool) (l : List α) : List α :=
  jsFilterWithIndexAux p 0 l

/-- One field update passed to `handleLayerPropChange(prop, value)`, with the
value typed as at the call sites.  These are exactly the keys the component
passes: the text-editing inputs, the image-size sliders, and the drag
handler's `x`/`y`.  The `type` discriminant is not among them — no call site
passes `'type'`. -/
inductive LayerProp where
  | content (v : String)
  | fontFamily (v : String)
  | fontSize (v : ℚ)
  | color (v : String)
  | strokeWidth (v : ℚ)
  | strokeColor (v : String)
  | shadowEnabled (v : Bool)
  | shadowColor (v : String)
  | shadowBlur (v : ℚ)
  | shadowOffsetX (v : ℚ)
  | shadowOffsetY (v : ℚ)
  | width (v : ℚ)
  | height (v : ℚ)
  | x (v : ℚ)
  | y (v : ℚ)
deriving DecidableEq

/-- The spread `{ ...layer, [prop]: value }` restricted to the typed model:
a key that exists on the layer's variant replaces that field; a key of the
other variant would add an extra untyped property that no reader of the
model (renderer, hit-tester, serialiser) ever consults, so the typed layer
is unchanged.  The `type` tag is never touched. -/
def updateProp : Layer → LayerProp → Layer
  | .text t, .content v => .text { t with content := v }
  | .text t, .fontFamily v => .text { t with fontFamily := v }
  | .text t, .fontSize v => .text { t with fontSize := v }
  | .text t, .color v => .text { t with color := v }
  | .text t, .strokeWidth v => .text { t with strokeWidth := v }
  | .text t, .strokeColor v => .text { t with strokeColor := v }
  | .text t, .shadowEnabled v => .text { t with shadowEnabled := v }
  | .text t, .shadowColor v => .text { t with shadowColor := v }
  | .text t, .shadowBlur v => .text { t with shadowBlur := v }
  | .text t, .shadowOffsetX v => .text { t with shadowOffsetX := v }
  | .text t, .shadowOffsetY v => .text { t with shadowOffsetY := v }
  | .text t, .x v => .text { t with x := v }
  | .text t, .y v => .text { t with y := v }
  | .text t, _ => .text t
  | .image i, .width v => .image { i with width := v }
  | .image i, .height v => .image { i with height := v }
  | .image i, .x v => .image { i with x := v }
  | .image i, .y v => .image { i with y := v }
  | .image i, _ => .image i

/-- `handleLayerPropChange(prop, value)`: no-op when
`selectedLayerIndex === null`, otherwise
`setLayers(layers.map((layer, index) => index === selectedLayerIndex ? { ...layer, [prop]: value } : layer))`. -/
def handleLayerPropChange (st : AppState) (u : LayerProp) : AppState :=
  match st.selectedLayerIndex with
  | none => st
  | some sel =>
    { st with
      layers := jsMapWithIndex
        (fun index layer => if index = sel then updateProp layer u else layer)
        st.layers }

/-- `deleteSelectedLayer`: no-op when nothing is selected, otherwise
`setLayers(layers.filter((_, index) => index !== selectedLayerIndex))`
followed by `setSelectedLayerIndex(null)`. -/
def deleteSelectedLayer (st : AppState) : AppState :=
  match st.selectedLayerIndex with
  | none => st
  | some sel =>
    { st with
      layers := jsFilterWithIndex (fun index _ => index ≠ sel) st.layers
      selectedLayerIndex := none }

/-- `handleMouseDown`: hit-test at `pos`; on a hit select the layer and set
`dragInfo.current` with the pointer's offset from the layer's centre
(`startX = pos.x - layers[originalIndex].x`, likewise `y`); on a miss clear
the selection (`dragInfo` is left as it was). -/
def handleMouseDown (measure : TextMeasure) (st : AppState) (pos : Point) :
    AppState :=
  match hitTestIdx measure st.layers pos with
  | some originalIndex =>
    let hit := st.layers.getD originalIndex default
    { st with
      selectedLayerIndex := some originalIndex
      dragInfo :=
        { isDragging := true
          targetIndex := some originalIndex
          startX := pos.x - hit.x
          startY := pos.y - hit.y } }
  | none => { st with selectedLayerIndex := none }

/-- `handleMouseMove`: returns unchanged unless a drag is in flight.  While
dragging it calls `handleLayerPropChange('x', pos.x - startX)` and then
`handleLayerPropChange('y', pos.y - startY)`.  Both calls read the *same*
render snapshot `st.layers` and each passes a plain value to `setLayers`,
so React replaces the first queued layer list with the second: the list
that commits is the one carrying only the `y` update, computed from the
pre-move layers.  The `x` update is lost. -/
def handleMouseMove (st : AppState) (pos : Point) : AppState :=
  if st.dragInfo.isDragging && st.dragInfo.targetIndex.isSome then
    let _afterX := handleLayerPropChange st (.x (pos.x - st.dragInfo.startX))
    handleLayerPropChange st (.y (pos.y - st.dragInfo.startY))
  else st

/-- `handleMouseUp` / `onMouseLeave`: reset the drag state. -/
def handleMouseUp (st : AppState) : AppState :=
  { st with
    dragInfo := { isDragging := false, targetIndex := none, startX := 0, startY := 0 } }

/-- The background-colour input's `onChange`:
`setBackgroundColor(e.target.value); setBackgroundImage(null);` — two
independent state fields, both committed. -/
def onChangeBackgroundColor (st : AppState) (c : String) : AppState :=
  { st with backgroundColor := c, backgroundImage := none }

/-- The background-image file input's `onChange` (after the file is read to
a data URI): `setBackgroundImage(dataUri)` — only the image reference is
set; `backgroundColor` keeps its value. -/
def onChangeBackgroundImage (st : AppState) (dataUri : String) : AppState :=
  { st with backgroundImage := some dataUri }

/-- The `Template` record `saveTemplate` builds from the current state:
`{ name, layers, canvasSize, backgroundColor, borderOptions, dateOptions }`.
The live `backgroundImage` is not among the fields. -/
def mkTemplate (name : String) (st : AppState) : Template :=
  { name := name
    layers := st.layers
    canvasSize := st.canvasSize
    backgroundColor := st.backgroundColor
    borderOptions := st.borderOptions
    dateOptions := st.dateOptions }

/-- `saveTemplate` with the prompt's reply as a parameter (`""` models both
a cancelled prompt and an empty reply: `if (!name) return;`).  Appends the
record to `templates` and writes the serialised list back to storage.
Returns the new state together with the stored string.  `stringify` stands
for `JSON.stringify`. -/
def saveTemplate (stringify : List Template → String) (name : String)
    (st : AppState) (stored : Option String) : AppState × Option String :=
  if name = "" then (st, stored)
  else
    let newTemplates := st.templates ++ [mkTemplate name st]
    ({ st with templates := newTemplates }, some (stringify newTemplates))

/-- `loadTemplate(template)` — the spec's `apply`: replaces canvas size,
background colour, border options, date options and layers with the
template's copies and clears the selection.  The live `backgroundImage` is
not assigned. -/
def loadTemplate (st : AppState) (t : Template) : AppState :=
  { st with
    canvasSize := t.canvasSize
    backgroundColor := t.backgroundColor
    borderOptions := t.borderOptions
    dateOptions := t.dateOptions
    layers := t.layers
    selectedLayerIndex := none }

/-- `deleteTemplate(name)`:
`templates.filter(t => t.name !== name)`, committed to state and rewritten
to storage. -/
def deleteTemplate (stringify : List Template → String) (name : String)
    (st : AppState) : AppState × Option String :=
  let newTemplates := st.templates.filter (fun t => t.name ≠ name)
  ({ st with templates := newTemplates }, some (stringify newTemplates))

/-- The template-loading effect:
`JSON.parse(localStorage.getItem('thumbnailer_templates') || '[]')` inside
`try`/`catch`, the `catch` falling back to `[]`.  An absent key (`null`,
falsy) makes the literal string `"[]"` the parser input.  `parse` stands
for `JSON.parse` specialised to template lists, `none` meaning it throws. -/
def loadAllTemplates (parse : String → Option (List Template))
    (stored : Option String) : List Template :=
  match parse (stored.getD "[]") with
  | some ts => ts
  | none => []

/-- `const selectedLayer = selectedLayerIndex !== null ? layers[selectedLayerIndex] : null`
(an out-of-range index gives `undefined`, i.e. `none`). -/
def selectedLayer (st : AppState) : Option Layer :=
  match st.selectedLayerIndex with
  | some i => st.layers.get? i
  | none => none

/-- One canvas-mutating step of the render effect, in the order the effect
issues them.  `drawTextLayer`/`drawImageLayer` stand for the whole
`drawText`/`drawImage` helper call on that layer, `dateStamp` for the pair
of stroke/fill calls on the clock-supplied date string. -/
inductive PaintOp where
  | clear
  | drawBackgroundImage (src : String)
  | fillBackground (color : String)
  | strokeBorder (color : String) (width : ℚ)
  | dateStamp
  | drawTextLayer (t : TextLayer)
  | drawImageLayer (i : ImageLayer)
  | selectionOutline (r : Rect)
deriving DecidableEq

/-- The padded outline rectangle of `drawSelection`:
text boxes are padded by 10px on each side, image boxes by 5px. -/
def selectionRect (measure : TextMeasure) : Layer → Rect
  | .text t =>
    { x := t.x - measure t.fontWeight t.fontSize t.fontFamily t.content / 2 - 10
      y := t.y - t.fontSize / 2 - 10
      width := measure t.fontWeight t.fontSize t.fontFamily t.content + 20
      height := t.fontSize + 20 }
  | .image i =>
    { x := i.x - i.width / 2 - 5
      y := i.y - i.height / 2 - 5
      width := i.width + 10
      height := i.height + 10 }

/-- The body of the layer `forEach`: a text layer is always drawn; an image
layer only when `imageObjects[layer.src]` is present (`cache` is the list
of decoded source keys). -/
def drawLayerOps (cache : List String) : Layer → List PaintOp
  | .text t => [.drawTextLayer t]
  | .image i => if i.src ∈ cache then [.drawImageLayer i] else []

/-- `layers.forEach(layer => ...)` of the render effect, as the ops it
emits in order. -/
def renderLayers (cache : List String) : List Layer → List PaintOp
  | [] => []
  | l :: ls => drawLayerOps cache l ++ renderLayers cache ls

/-- The background phase of the render effect:
`if (backgroundImage && imageObjects[backgroundImage]) drawImage(...) else fillRect(backgroundColor)`
(`backgroundImage` must be truthy, i.e. a non-empty string, and decoded). -/
def backgroundOps (st : AppState) (cache : List String) : List PaintOp :=
  match st.backgroundImage with
  | some src =>
    if src ≠ "" ∧ src ∈ cache then [.drawBackgroundImage src]
    else [.fillBackground st.backgroundColor]
  | none => [.fillBackground st.backgroundColor]

/-- The border phase: `if (borderOptions.enabled && borderOptions.width > 0) strokeRect(...)`. -/
def borderOps (b : BorderOptions) : List PaintOp :=
  if b.enabled ∧ b.width > 0 then [.strokeBorder b.color b.width] else []

/-- The date phase: `if (dateOptions.enabled) { strokeText(...); fillText(...); }`. -/
def dateOps (d : DateOptions) : List PaintOp :=
  if d.enabled then [.dateStamp] else []

/-- The selection phase: `if (selectedLayer) drawSelection(ctx, selectedLayer)`. -/
def selectionOps (measure : TextMeasure) (st : AppState) : List PaintOp :=
  match selectedLayer st with
  | some l => [.selectionOutline (selectionRect measure l)]
  | none => []

/-- The whole render effect as the sequence of ops it issues: clear, then
the background branch, the border branch, the date branch, the layer loop,
and the selection branch, exactly as the statements appear in the effect
body. -/
def renderApp (measure : TextMeasure) (st : AppState) (cache : List String) :
    List PaintOp :=
  [PaintOp.clear]
  ++ (match st.backgroundImage with
      | some src =>
        if src ≠ "" ∧ src ∈ cache then [PaintOp.drawBackgroundImage src]
        else [PaintOp.fillBackground st.backgroundColor]
      | none => [PaintOp.fillBackground st.backgroundColor])
  ++ (if st.borderOptions.enabled ∧ st.borderOptions.width > 0 then
        [PaintOp.strokeBorder st.borderOptions.color st.borderOptions.width]
      else [])
  ++ (if st.dateOptions.enabled then [PaintOp.dateStamp] else [])
  ++ renderLayers cache st.layers
  ++ (match selectedLayer st with
      | some l => [PaintOp.selectionOutline (selectionRect measure l)]
      | none => [])

/-- A sample text layer (the shape of the component's initial layer). -/
def sampleTextLayer : TextLayer :=
  { x := 640, y := 360, content := "Hello", fontSize := 80
    fontFamily := "Gmarket Sans", fontWeight := "bold", color := "#FFFFFF"
    strokeColor := "#000000", strokeWidth := 6, shadowColor := "rgba(0,0,0,0.5)"
    shadowBlur := 10, shadowOffsetX := 5, shadowOffsetY := 5, shadowEnabled := true }

/-- A sample image layer with a data-URI source. -/
def sampleImageLayer : ImageLayer :=
  { x := 100, y := 100, src := "data:image/png;base64,iVBO", width := 50, height := 50 }

/-- A sample component state (the component's initial `useState` values,
with an ASCII stand-in for the initial text content). -/
def sampleState : AppState :=
  { canvasSize := { width := 1280, height := 720 }
    backgroundColor := "#1a1a1a"
    backgroundImage := none
    borderOptions := { color := "#000000", width := 20, enabled := true }
    dateOptions := { enabled := true }
    layers := [Layer.text sampleTextLayer]
    selectedLayerIndex := some 0
    templates := []
    dragInfo := { isDragging := false, targetIndex := none, startX := 0, startY := 0 } }

/-- State mid-drag: one text layer centred at `(100, 100)`, grabbed at
`(110, 110)`, i.e. with offset `(10, 10)` from the centre. -/
def dragStartState : AppState :=
  { sampleState with
    layers := [Layer.text { sampleTextLayer with x := 100, y := 100 }]
    selectedLayerIndex := some 0
    dragInfo := { isDragging := true, targetIndex := some 0, startX := 10, startY := 10 } }

/-- A constant text-metrics oracle: every string measures 40px wide. -/
def constMeasure : TextMeasure := fun _ _ _ _ => 40

/-- A toy `JSON.parse` that only recognises the empty-list literal. -/
def toyParse : String → Option (List Template) :=
  fun s => if s = "[]" then some [] else none

/-! ## Helper lemmas -/

theorem jsMapWithIndexAux_length (f : Nat → α → α) :
    ∀ (l : List α) (i : Nat), (jsMapWithIndexAux f i l).length = l.length := by
  intro l
  induction l with
  | nil => intro i; rfl
  | cons a as ih => intro i; simp [jsMapWithIndexAux, ih]

theorem jsMapWithIndexAux_getD (f : Nat → α → α) (d : α) :
    ∀ (l : List α) (i j : Nat),
      (jsMapWithIndexAux f i l).getD j d =
        if j < l.length then f (i + j) (l.getD j d) else d := by
  intro l
  induction l with
  | nil => intro i j; simp [jsMapWithIndexAux]
  | cons a as ih =>
    intro i j
    cases j with
    | zero => simp [jsMapWithIndexAux]
    | succ j =>
      have h1 : i + 1 + j = i + (j + 1) := by omega
      simp only [jsMapWithIndexAux, List.getD_cons_succ, List.length_cons,
        Nat.add_lt_add_iff_right, ih (i + 1) j, h1]

theorem jsFilterWithIndexAux_ne (sel : Nat) :
    ∀ (l : List α) (i : Nat),
      jsFilterWithIndexAux (fun index _ => index ≠ sel) i l =
        if sel < i then l else l.eraseIdx (sel - i) := by
  intro l
  induction l with
  | nil => intro i; simp [jsFilterWithIndexAux]
  | cons a as ih =>
    intro i
    by_cases h : i = sel
    · subst h
      rw [jsFilterWithIndexAux, if_neg (by simp), ih (i + 1)]
      simp
    · by_cases h2 : sel < i
      · rw [jsFilterWithIndexAux, if_pos (by simp [h]), ih (i + 1),
          if_pos (show sel < i + 1 by omega), if_pos h2]
      · have h4 : ¬sel < i + 1 := by omega
        have h5 : sel - i = (sel - (i + 1)) + 1 := by omega
        rw [jsFilterWithIndexAux, if_pos (by simp [h]), ih (i + 1), if_neg h4, if_neg h2,
          h5, List.eraseIdx_cons_succ]

theorem updateProp_isText (l : Layer) (u : LayerProp) :
    (updateProp l u).isText = l.isText := by
  cases l <;> cases u <;> rfl

theorem hitTestIdx_concat (measure : TextMeasure) (ls : List Layer) (a : Layer)
    (p : Point) :
    hitTestIdx measure (ls ++ [a]) p =
      if rectContains (layerRect measure a) p then some ls.length
      else hitTestIdx measure ls p := by
  unfold hitTestIdx
  rw [List.reverse_append]
  simp only [List.reverse_cons, List.reverse_nil, List.nil_append, List.cons_append,
    List.nil_append]
  rw [findIndex]
  by_cases h : rectContains (layerRect measure a) p
  · simp [h]
  · simp only [h, Bool.false_eq_true, if_false]
    cases hfi : findIndex (fun l => rectContains (layerRect measure l) p) ls.reverse with
    | none => rfl
    | some i =>
      simp only [Option.map_some]
      show some ((ls ++ [a]).length - 1 - (i + 1)) = some (ls.length - 1 - i)
      congr 1
      simp only [List.length_append, List.length_cons, List.length_nil]
      omega

theorem hitTestIdx_eq_none_iff (measure : TextMeasure) (ls : List Layer) (p : Point) :
    hitTestIdx measure ls p = none ↔
      ∀ l ∈ ls, rectContains (layerRect measure l) p = false := by
  induction ls using List.reverseRecOn with
  | nil => simp [hitTestIdx, findIndex]
  | append_singleton xs a ih =>
    rw [hitTestIdx_concat]
    by_cases h : rectContains (layerRect measure a) p
    · simp [h]
      exact ⟨a, by simp, h⟩
    · simp only [h, Bool.false_eq_true, if_false, ih]
      constructor
      · intro hall l hl
        rcases List.mem_append.mp hl with hl | hl
        · exact hall l hl
        · rcases List.mem_singleton.mp hl with rfl
          simpa using h
      · intro hall l hl
        exact hall l (List.mem_append.mpr (Or.inl hl))

theorem hitTestIdx_eq_some_iff (measure : TextMeasure) (ls : List Layer) (p : Point)
    (i : Nat) :
    hitTestIdx measure ls p = some i ↔
      ∃ h : i < ls.length,
        rectContains (layerRect measure (ls.get ⟨i, h⟩)) p = true ∧
        ∀ j (hj : j < ls.length), i < j →
          rectContains (layerRect measure (ls.get ⟨j, hj⟩)) p = false := by
  induction ls using List.reverseRecOn with
  | nil => simp [hitTestIdx, findIndex]
  | append_singleton xs a ih =>
    rw [hitTestIdx_concat]
    by_cases h : rectContains (layerRect measure a) p
    · simp only [h, if_true]
      constructor
      · intro he
        have hi : i = xs.length := by
          injection he with he
          omega
        subst hi
        refine ⟨by simp, ?_, ?_⟩
        · have ha : (xs ++ [a]).get ⟨xs.length, by simp⟩ = a := by
            simp [List.get_eq_getElem, List.getElem_append_right]
          rw [ha]
          exact h
        · intro j hj hij
          simp only [List.length_append, List.length_cons, List.length_nil] at hj
          omega
      · rintro ⟨hlt, hhit, htop⟩
        have hi : i = xs.length := by
          by_contra hne
          have hlt2 : i < xs.length := by
            simp only [List.length_append, List.length_cons, List.length_nil] at hlt
            omega
          have hcon := htop xs.length (by simp) hlt2
          have ha : (xs ++ [a]).get ⟨xs.length, by simp⟩ = a := by
            simp [List.get_eq_getElem, List.getElem_append_right]
          rw [ha] at hcon
          rw [hcon] at h
          exact Bool.false_ne_true h
        subst hi
        rfl
    · simp only [h, Bool.false_eq_true, if_false, ih]
      constructor
      · rintro ⟨hlt, hhit, htop⟩
        refine ⟨by simp only [List.length_append, List.length_cons, List.length_nil]; omega,
          ?_, ?_⟩
        · have hg : (xs ++ [a]).get ⟨i, by simp only [List.length_append,
              List.length_cons, List.length_nil]; omega⟩ = xs.get ⟨i, hlt⟩ := by
            simp [List.get_eq_getElem, List.getElem_append_left hlt]
          rw [hg]
          exact hhit
        · intro j hj hij
          simp only [List.length_append, List.length_cons, List.length_nil] at hj
          by_cases hjx : j < xs.length
          · have hg : (xs ++ [a]).get ⟨j, by simp only [List.length_append,
                List.length_cons, List.length_nil]; omega⟩ = xs.get ⟨j, hjx⟩ := by
              simp [List.get_eq_getElem, List.getElem_append_left hjx]
            rw [hg]
            exact htop j hjx hij
          · have hj2 : j = xs.length := by omega
            subst hj2
            have ha : (xs ++ [a]).get ⟨xs.length, by simp⟩ = a := by
              simp [List.get_eq_getElem, List.getElem_append_right]
            rw [ha]
            simpa using h
      · rintro ⟨hlt, hhit, htop⟩
        simp only [List.length_append, List.length_cons, List.length_nil] at hlt
        have hi : i < xs.length := by
          by_contra hni
          have hie : i = xs.length := by omega
          subst hie
          have ha : (xs ++ [a]).get ⟨xs.length, by simp⟩ = a := by
            simp [List.get_eq_getElem, List.getElem_append_right]
          rw [ha] at hhit
          rw [hhit] at h
          exact h rfl
        refine ⟨hi, ?_, ?_⟩
        · have hg : (xs ++ [a]).get ⟨i, by simp only [List.length_append,
              List.length_cons, List.length_nil]; omega⟩ = xs.get ⟨i, hi⟩ := by
            simp [List.get_eq_getElem, List.getElem_append_left hi]
          rw [← hg]
          exact hhit
        · intro j hj hij
          have hg : (xs ++ [a]).get ⟨j, by simp only [List.length_append,
              List.length_cons, List.length_nil]; omega⟩ = xs.get ⟨j, hj⟩ := by
            simp [List.get_eq_getElem, List.getElem_append_left hj]
          rw [← hg]
          exact htop j (by simp only [List.length_append, List.length_cons,
            List.length_nil]; omega) hij

/-! ## Claim theorems -/

/-- C1 (counterexample): the save/load/apply round trip is *not* deep-equal
on every well-formed Scene.  A `Template` carries no background-image field
and `loadTemplate` never assigns `backgroundImage`, so a Scene whose
background is an embedded image data URI comes back with whatever
background image the live state happened to have at apply time — here
`none` instead of the saved data URI. -/
theorem saveLoad_roundtrip_counterexample :
    (loadTemplate sampleState
        (mkTemplate "A"
          { sampleState with
            backgroundImage := some "data:image/png;base64,AAAA" })).scene ≠
      ({ sampleState with
         backgroundImage := some "data:image/png;base64,AAAA" } : AppState).scene := by
  decide

/-- C1 (amended): saving appends the full record of canvas size, background
colour, border options, date options and layers, and applying the loaded
template restores exactly those components and clears the selection; the
resulting live Scene equals the saved one on every component *except* the
background image reference, which keeps the pre-apply live value because it
is not part of a `Template`. -/
theorem saveLoad_roundtrip_amended
    (stringify : List Template → String) (stSave stApply : AppState)
    (name : String) (stored : Option String) (h : name ≠ "") :
    (saveTemplate stringify name stSave stored).1.templates =
      stSave.templates ++ [mkTemplate name stSave] ∧
    (loadTemplate stApply (mkTemplate name stSave)).scene =
      { stSave.scene with backgroundImage := stApply.backgroundImage } ∧
    (loadTemplate stApply (mkTemplate name stSave)).selectedLayerIndex = none := by
  refine ⟨?_, rfl, rfl⟩
  simp [saveTemplate, h]

/-- Witness for the amended C1 theorem at a concrete state and name. -/
theorem saveLoad_roundtrip_amended_witness :
    (saveTemplate (fun _ => "") "A" sampleState none).1.templates =
      sampleState.templates ++ [mkTemplate "A" sampleState] ∧
    (loadTemplate sampleState (mkTemplate "A" sampleState)).scene =
      { sampleState.scene with backgroundImage := sampleState.backgroundImage } ∧
    (loadTemplate sampleState (mkTemplate "A" sampleState)).selectedLayerIndex = none :=
  saveLoad_roundtrip_amended (fun _ => "") sampleState sampleState "A" none (by decide)

/-- C2: the background-colour handler clears the stored background-image
reference and the renderer then paints the solid colour; the
background-image handler makes the renderer paint the image (once the data
URI is decoded into the cache), discarding the solid-colour intent; and in
every state the background phase emits exactly one of the two modes. -/
theorem background_mode_exclusive (st : AppState) (cache : List String)
    (c src : String) :
    (onChangeBackgroundColor st c).backgroundImage = none ∧
    backgroundOps (onChangeBackgroundColor st c) cache = [PaintOp.fillBackground c] ∧
    (src ≠ "" → src ∈ cache →
      backgroundOps (onChangeBackgroundImage st src) cache =
        [PaintOp.drawBackgroundImage src]) ∧
    ((∃ s, backgroundOps st cache = [PaintOp.drawBackgroundImage s]) ∨
      backgroundOps st cache = [PaintOp.fillBackground st.backgroundColor]) := by
  refine ⟨rfl, rfl, ?_, ?_⟩
  · intro h1 h2
    simp [backgroundOps, onChangeBackgroundImage, h1, h2]
  · cases hb : st.backgroundImage with
    | none => exact Or.inr (by simp [backgroundOps, hb])
    | some s =>
      by_cases h : s ≠ "" ∧ s ∈ cache
      · exact Or.inl ⟨s, by simp [backgroundOps, hb, h]⟩
      · exact Or.inr (by simp [backgroundOps, hb, h])

/-- Witness for C2: after setting a decoded background image, the
background phase draws that image. -/
theorem background_mode_exclusive_witness :
    backgroundOps (onChangeBackgroundImage sampleState "data:image/png;base64,iVBO")
        ["data:image/png;base64,iVBO"] =
      [PaintOp.drawBackgroundImage "data:image/png;base64,iVBO"] :=
  (background_mode_exclusive sampleState ["data:image/png;base64,iVBO"] "#ffffff"
      "data:image/png;base64,iVBO").2.2.1 (by decide) (by simp)

/-- C3: the hit-tester returns `none` exactly when no layer's bounding box
(measured text width × font size for text, declared width × height for
images, centred at the layer's position) contains the point, and returns
`some i` exactly when layer `i`'s box contains the point and no
later-listed (visually higher) layer's box does: the greatest matching
index wins. -/
theorem hitTest_topmost (measure : TextMeasure) (ls : List Layer) (p : Point) :
    (hitTestIdx measure ls p = none ↔
      ∀ l ∈ ls, rectContains (layerRect measure l) p = false) ∧
    ∀ i, (hitTestIdx measure ls p = some i ↔
      ∃ h : i < ls.length,
        rectContains (layerRect measure (ls.get ⟨i, h⟩)) p = true ∧
        ∀ j (hj : j < ls.length), i < j →
          rectContains (layerRect measure (ls.get ⟨j, hj⟩)) p = false) :=
  ⟨hitTestIdx_eq_none_iff measure ls p, fun i => hitTestIdx_eq_some_iff measure ls p i⟩

/-- Witness for C3: two overlapping layers both containing the pointer; the
later-listed layer (index 1) wins the hit. -/
theorem hitTest_topmost_witness :
    hitTestIdx constMeasure
        [Layer.text { sampleTextLayer with x := 100, y := 100, fontSize := 40 },
         Layer.image { sampleImageLayer with x := 110, y := 100, width := 40, height := 40 }]
        ⟨100, 100⟩ = some 1 := by
  apply ((hitTest_topmost constMeasure
      [Layer.text { sampleTextLayer with x := 100, y := 100, fontSize := 40 },
       Layer.image { sampleImageLayer with x := 110, y := 100, width := 40, height := 40 }]
      ⟨100, 100⟩).2 1).mpr
  refine ⟨by decide, ?_, ?_⟩
  · show rectContains
      (layerRect constMeasure
        (Layer.image { sampleImageLayer with x := 110, y := 100, width := 40, height := 40 }))
      ⟨100, 100⟩ = true
    simp only [layerRect, rectContains, constMeasure, sampleImageLayer,
      Bool.and_eq_true, decide_eq_true_eq]
    norm_num
  · intro j hj hij
    simp only [List.length_cons, List.length_nil] at hj
    omega

/-- C4 (code bug): dragging does not preserve the grab offset on the x
axis.  With a layer centred at `(100, 100)` grabbed with offset `(10, 10)`,
moving the pointer to `(300, 150)` should move the centre to `(290, 140)`;
`handleMouseMove` issues the `x` and `y` updates as two separate
plain-value `setLayers` calls computed from the same render snapshot, so
the second (y) update overwrites the first and the committed centre is
`(100, 140)`. -/
theorem handleMouseMove_drops_x_update :
    ((handleMouseMove dragStartState ⟨300, 150⟩).layers.getD 0 default).x = 100 ∧
    ((handleMouseMove dragStartState ⟨300, 150⟩).layers.getD 0 default).y = 140 ∧
    ¬((handleMouseMove dragStartState ⟨300, 150⟩).layers.getD 0 default).x = 290 := by
  have h : handleMouseMove dragStartState ⟨300, 150⟩ =
      handleLayerPropChange dragStartState (LayerProp.y ((150 : ℚ) - 10)) := by
    unfold handleMouseMove
    rfl
  rw [h]
  refine ⟨?_, ?_, ?_⟩ <;>
    · simp only [handleLayerPropChange, dragStartState, sampleState, sampleTextLayer,
        jsMapWithIndex, jsMapWithIndexAux, updateProp, List.getD, List.getElem?_cons_zero,
        Option.getD_some, Layer.x, Layer.y]
      norm_num

/-- C5: `handleLayerPropChange` leaves the layer list untouched when no
layer is selected; with a selection it preserves the list length, leaves
every non-selected layer unchanged, preserves every layer's tagged-union
shape (text stays text, image stays image), and rewrites the selected
layer to `updateProp` of its old value — which, by the per-key equations
in the last two conjuncts, replaces exactly the one named field with the
given value and keeps every other field. -/
theorem handleLayerPropChange_spec (st : AppState) (u : LayerProp) :
    (st.selectedLayerIndex = none → handleLayerPropChange st u = st) ∧
    (∀ sel, st.selectedLayerIndex = some sel →
      (handleLayerPropChange st u).layers.length = st.layers.length ∧
      (∀ j, j ≠ sel →
        (handleLayerPropChange st u).layers.getD j default =
          st.layers.getD j default) ∧
      (∀ j, ((handleLayerPropChange st u).layers.getD j default).isText =
        (st.layers.getD j default).isText) ∧
      (sel < st.layers.length →
        (handleLayerPropChange st u).layers.getD sel default =
          updateProp (st.layers.getD sel default) u)) ∧
    (∀ (t : TextLayer) (s : String) (q : ℚ) (b : Bool),
      updateProp (Layer.text t) (LayerProp.content s) =
        Layer.text { t with content := s } ∧
      updateProp (Layer.text t) (LayerProp.fontFamily s) =
        Layer.text { t with fontFamily := s } ∧
      updateProp (Layer.text t) (LayerProp.fontSize q) =
        Layer.text { t with fontSize := q } ∧
      updateProp (Layer.text t) (LayerProp.color s) =
        Layer.text { t with color := s } ∧
      updateProp (Layer.text t) (LayerProp.strokeWidth q) =
        Layer.text { t with strokeWidth := q } ∧
      updateProp (Layer.text t) (LayerProp.strokeColor s) =
        Layer.text { t with strokeColor := s } ∧
      updateProp (Layer.text t) (LayerProp.shadowEnabled b) =
        Layer.text { t with shadowEnabled := b } ∧
      updateProp (Layer.text t) (LayerProp.shadowColor s) =
        Layer.text { t with shadowColor := s } ∧
      updateProp (Layer.text t) (LayerProp.shadowBlur q) =
        Layer.text { t with shadowBlur := q } ∧
      updateProp (Layer.text t) (LayerProp.shadowOffsetX q) =
        Layer.text { t with shadowOffsetX := q } ∧
      updateProp (Layer.text t) (LayerProp.shadowOffsetY q) =
        Layer.text { t with shadowOffsetY := q } ∧
      updateProp (Layer.text t) (LayerProp.x q) = Layer.text { t with x := q } ∧
      updateProp (Layer.text t) (LayerProp.y q) = Layer.text { t with y := q }) ∧
    (∀ (im : ImageLayer) (q : ℚ),
      updateProp (Layer.image im) (LayerProp.width q) =
        Layer.image { im with width := q } ∧
      updateProp (Layer.image im) (LayerProp.height q) =
        Layer.image { im with height := q } ∧
      updateProp (Layer.image im) (LayerProp.x q) = Layer.image { im with x := q } ∧
      updateProp (Layer.image im) (LayerProp.y q) = Layer.image { im with y := q }) := by
  refine ⟨?_, ?_,
    fun t s q b => ⟨rfl, rfl, rfl, rfl, rfl, rfl, rfl, rfl, rfl, rfl, rfl, rfl, rfl⟩,
    fun im q => ⟨rfl, rfl, rfl, rfl⟩⟩
  · intro h
    unfold handleLayerPropChange
    rw [h]
  · intro sel hsel
    have hst : handleLayerPropChange st u =
        { st with
          layers := jsMapWithIndex
            (fun index layer => if index = sel then updateProp layer u else layer)
            st.layers } := by
      unfold handleLayerPropChange
      rw [hsel]
    rw [hst]
    refine ⟨jsMapWithIndexAux_length _ st.layers 0, ?_, ?_, ?_⟩
    · intro j hj
      show (jsMapWithIndexAux
          (fun index layer => if index = sel then updateProp layer u else layer)
          0 st.layers).getD j default = st.layers.getD j default
      rw [jsMapWithIndexAux_getD]
      by_cases hlt : j < st.layers.length
      · simp [hlt, hj]
      · rw [if_neg hlt, List.getD_eq_default st.layers default (by omega)]
    · intro j
      show ((jsMapWithIndexAux
          (fun index layer => if index = sel then updateProp layer u else layer)
          0 st.layers).getD j default).isText = (st.layers.getD j default).isText
      rw [jsMapWithIndexAux_getD]
      by_cases hlt : j < st.layers.length
      · by_cases he : j = sel
        · subst he
          simp [hlt, updateProp_isText]
        · simp [hlt, he]
      · rw [if_neg hlt, List.getD_eq_default st.layers default (by omega)]
    · intro hlt
      show (jsMapWithIndexAux
          (fun index layer => if index = sel then updateProp layer u else layer)
          0 st.layers).getD sel default = updateProp (st.layers.getD sel default) u
      rw [jsMapWithIndexAux_getD]
      simp [hlt]

/-- Witness for C5 at a concrete state with layer 0 selected: the update
really lands on the selected layer. -/
theorem handleLayerPropChange_spec_witness :
    (handleLayerPropChange sampleState (LayerProp.content "hi")).layers.getD 0
        default =
      updateProp (sampleState.layers.getD 0 default) (LayerProp.content "hi") :=
  (((handleLayerPropChange_spec sampleState (LayerProp.content "hi")).2.1 0
      rfl).2.2.2) (by decide)

/-- C6: `deleteSelectedLayer` always leaves the selection cleared, and the
layer list loses exactly the selected index (it is unchanged when nothing
was selected). -/
theorem deleteSelectedLayer_spec (st : AppState) :
    (deleteSelectedLayer st).selectedLayerIndex = none ∧
    (deleteSelectedLayer st).layers =
      (match st.selectedLayerIndex with
       | none => st.layers
       | some sel => st.layers.eraseIdx sel) := by
  cases hsel : st.selectedLayerIndex with
  | none =>
    unfold deleteSelectedLayer
    rw [hsel]
    exact ⟨hsel, rfl⟩
  | some sel =>
    unfold deleteSelectedLayer
    rw [hsel]
    refine ⟨rfl, ?_⟩
    show jsFilterWithIndex (fun index _ => index ≠ sel) st.layers =
      st.layers.eraseIdx sel
    rw [jsFilterWithIndex, jsFilterWithIndexAux_ne sel st.layers 0]
    simp

/-- C7: the renderer's trace decomposes as clear, background phase, border
phase, date phase, the layer loop, and the selection outline, in that
order; and the layer loop is order-preserving: the ops of an earlier layer
segment precede the ops of a later segment, so layer `i` is painted before
layer `i+1`. -/
theorem render_phase_order (measure : TextMeasure) (st : AppState)
    (cache : List String) :
    renderApp measure st cache =
      [PaintOp.clear] ++ backgroundOps st cache ++ borderOps st.borderOptions ++
        dateOps st.dateOptions ++ renderLayers cache st.layers ++
        selectionOps measure st ∧
    ∀ la lb : List Layer,
      renderLayers cache (la ++ lb) =
        renderLayers cache la ++ renderLayers cache lb := by
  constructor
  · rfl
  · intro la lb
    induction la with
    | nil => rfl
    | cons a as ih => simp [renderLayers, ih]

/-- C8: `deleteTemplate` keeps exactly the entries whose name differs from
the given name and rewrites storage with the serialised remainder; in the
save-"A"-then-delete-"A" scenario, `loadAll` on the rewritten storage
yields no entry named "A". -/
theorem deleteTemplate_spec (stringify : List Template → String)
    (parse : String → Option (List Template)) (st : AppState)
    (stored : Option String) (name : String) :
    (∀ t, t ∈ (deleteTemplate stringify name st).1.templates ↔
      t ∈ st.templates ∧ t.name ≠ name) ∧
    (deleteTemplate stringify name st).2 =
      some (stringify (deleteTemplate stringify name st).1.templates) ∧
    (parse (stringify (deleteTemplate stringify "A"
          (saveTemplate stringify "A" st stored).1).1.templates) =
        some (deleteTemplate stringify "A"
          (saveTemplate stringify "A" st stored).1).1.templates →
      (loadAllTemplates parse (deleteTemplate stringify "A"
          (saveTemplate stringify "A" st stored).1).2).all
        (fun t => t.name ≠ "A") = true) := by
  refine ⟨?_, rfl, ?_⟩
  · intro t
    simp [deleteTemplate, List.mem_filter]
  · intro hparse
    show (loadAllTemplates parse (some (stringify
        (deleteTemplate stringify "A"
          (saveTemplate stringify "A" st stored).1).1.templates))).all
      (fun t => t.name ≠ "A") = true
    unfold loadAllTemplates
    simp only [Option.getD_some]
    rw [hparse]
    have hdel : (deleteTemplate stringify "A"
        (saveTemplate stringify "A" st stored).1).1.templates =
        ((saveTemplate stringify "A" st stored).1.templates).filter
          (fun t => t.name ≠ "A") := rfl
    show ((deleteTemplate stringify "A"
        (saveTemplate stringify "A" st stored).1).1.templates).all
      (fun t => t.name ≠ "A") = true
    rw [hdel, List.all_eq_true]
    intro t ht
    exact (List.mem_filter.mp ht).2

/-- Witness for C8's scenario with a toy serialiser/parser pair that agrees
on the one list the scenario produces. -/
theorem deleteTemplate_spec_witness :
    (loadAllTemplates (fun _ => some []) (deleteTemplate (fun _ => "") "A"
        (saveTemplate (fun _ => "") "A" sampleState none).1).2).all
      (fun t => t.name ≠ "A") = true :=
  (deleteTemplate_spec (fun _ => "") (fun _ => some []) sampleState none "A").2.2
    (by decide)

/-- C9: `loadAll` returns the persisted list when storage parses, and the
empty list — as a total function, with no error surfaced — when storage is
absent (the `'[]'` fallback literal parses to the empty list) or when the
stored string is corrupt, i.e. the parser throws. -/
theorem loadAllTemplates_spec (parse : String → Option (List Template))
    (stored : Option String) :
    (stored = none → parse "[]" = some [] → loadAllTemplates parse stored = []) ∧
    (∀ s ts, stored = some s → parse s = some ts →
      loadAllTemplates parse stored = ts) ∧
    (∀ s, stored = some s → parse s = none → loadAllTemplates parse stored = []) := by
  refine ⟨?_, ?_, ?_⟩
  · rintro rfl hp
    unfold loadAllTemplates
    simp [hp]
  · rintro s ts rfl hp
    unfold loadAllTemplates
    simp [hp]
  · rintro s rfl hp
    unfold loadAllTemplates
    simp [hp]

/-- Witness for C9: absent storage yields the empty template list. -/
theorem loadAllTemplates_spec_witness :
    loadAllTemplates toyParse none = [] :=
  (loadAllTemplates_spec toyParse none).1 rfl (by decide)

/-- C10: an image layer whose source is not yet in the decoded cache emits
no paint op, yet the hit-tester still uses its declared width × height box:
a pointer-down inside that box (with no higher layer covering the point)
selects the invisible layer and begins dragging it with the recorded grab
offset. -/
theorem undecoded_image_layer_hit (measure : TextMeasure) (st : AppState)
    (cache : List String) (p : Point) (i : Nat) (img : ImageLayer)
    (hi : i < st.layers.length)
    (himg : st.layers.get ⟨i, hi⟩ = Layer.image img)
    (hcache : img.src ∉ cache)
    (hhit : rectContains (layerRect measure (Layer.image img)) p = true)
    (htop : ∀ j (hj : j < st.layers.length), i < j →
      rectContains (layerRect measure (st.layers.get ⟨j, hj⟩)) p = false) :
    drawLayerOps cache (Layer.image img) = [] ∧
    (handleMouseDown measure st p).selectedLayerIndex = some i ∧
    (handleMouseDown measure st p).dragInfo =
      { isDragging := true, targetIndex := some i,
        startX := p.x - img.x, startY := p.y - img.y } := by
  have hfind : hitTestIdx measure st.layers p = some i :=
    (hitTestIdx_eq_some_iff measure st.layers p i).mpr
      ⟨hi, by rw [himg]; exact hhit, htop⟩
  have hgetD : st.layers.getD i default = Layer.image img := by
    rw [List.getD_eq_getElem st.layers default hi]
    rw [List.get_eq_getElem] at himg
    exact himg
  have hmd : handleMouseDown measure st p =
      { st with
        selectedLayerIndex := some i
        dragInfo :=
          { isDragging := true
            targetIndex := some i
            startX := p.x - (st.layers.getD i default).x
            startY := p.y - (st.layers.getD i default).y } } := by
    unfold handleMouseDown
    rw [hfind]
  refine ⟨by simp [drawLayerOps, hcache], ?_, ?_⟩
  · rw [hmd]
  · rw [hmd, hgetD]
    simp only [Layer.x, Layer.y]

/-- Witness for C10: one undecoded image layer at `(100, 100)` of size
50 × 50, pointer-down at its centre. -/
theorem undecoded_image_layer_hit_witness :
    drawLayerOps [] (Layer.image sampleImageLayer) = [] ∧
    (handleMouseDown constMeasure
        { sampleState with layers := [Layer.image sampleImageLayer] }
        ⟨100, 100⟩).selectedLayerIndex = some 0 ∧
    (handleMouseDown constMeasure
        { sampleState with layers := [Layer.image sampleImageLayer] }
        ⟨100, 100⟩).dragInfo =
      { isDragging := true, targetIndex := some 0,
        startX := (100 : ℚ) - sampleImageLayer.x,
        startY := (100 : ℚ) - sampleImageLayer.y } :=
  undecoded_image_layer_hit constMeasure
    { sampleState with layers := [Layer.image sampleImageLayer] }
    [] ⟨100, 100⟩ 0 sampleImageLayer
    (by decide) (by decide) (by simp)
    (by simp only [layerRect, rectContains, sampleImageLayer, Bool.and_eq_true,
          decide_eq_true_eq]
        norm_num)
    (by intro j hj hij
        simp only [List.length_cons, List.length_nil] at hj
        omega)

end Thumbnailer
